import Mathlib

/-!
Shallow embedding of the stablecoin-standard programs
(`programs/stablecoin-core` and `programs/transfer-hook`).

Modelling conventions:
* `Pubkey` is `Nat`; `Pubkey::default()` is `0`.
* `u64` fields are `Nat`; where the source uses `checked_add`/`checked_sub`
  the embedding uses `checkedAddU64`/`checkedSubU64`, which fail exactly when
  the mathematical result leaves the `u64` range.
* `i64` timestamps are `Int`; `i64::saturating_sub` is `saturatingSubI64`.
* `u8` role bitmasks are `Nat`; the source's `!MASK` complements within `u8`,
  so `!VALID_ROLE_MASK = 0x80` and `!ROLE_MASTER_AUTHORITY = 0xFE` appear as
  the literals `128` and `254`.
* Each Anchor instruction handler becomes a pure function from an accounts
  structure (the deserialized pre-states plus the account addresses the
  handler compares) to `Except StablecoinError <result>`.  The result holds
  the post-states of exactly the accounts the handler writes.  Returning
  `Except.error` with no result mirrors Solana's transaction-level
  atomicity: a failed instruction persists no account mutation.
* Cross-program invocations into the external token ledger (mint_to, burn,
  freeze, thaw, transfer) are modelled by their balance/state effect; the
  ledger's own arithmetic guards appear where the handler itself re-checks
  them (`checked_add`/`checked_sub` on supply).
-/

namespace Stablecoin

instance {ε α : Type _} [DecidableEq ε] [DecidableEq α] : DecidableEq (Except ε α) := fun
  | Except.ok a, Except.ok b =>
      if h : a = b then Decidable.isTrue (by rw [h]) else
        Decidable.isFalse (fun hh => h (Except.ok.inj hh))
  | Except.ok _, Except.error _ => Decidable.isFalse (fun hh => Except.noConfusion hh)
  | Except.error _, Except.ok _ => Decidable.isFalse (fun hh => Except.noConfusion hh)
  | Except.error e, Except.error f =>
      if h : e = f then Decidable.isTrue (by rw [h]) else
        Decidable.isFalse (fun hh => h (Except.error.inj hh))

abbrev Pubkey := Nat

/-- `u64` modulus. -/
def U64_MOD : Nat := 2 ^ 64

/-- `i64::MAX`. -/
def I64_MAX : Int := 9223372036854775807

/-- `i64::MIN`. -/
def I64_MIN : Int := -9223372036854775808

/-- Rust `u64::checked_add`: `none` exactly on overflow. -/
def checkedAddU64 (a b : Nat) : Option Nat :=
  if a + b < U64_MOD then some (a + b) else none

/-- Rust `u64::checked_sub`: `none` exactly on underflow. -/
def checkedSubU64 (a b : Nat) : Option Nat :=
  if b ≤ a then some (a - b) else none

/-- Rust `i64::saturating_sub` for values already in `i64` range. -/
def saturatingSubI64 (a b : Int) : Int :=
  max I64_MIN (min I64_MAX (a - b))

/-! ### constants.rs -/

def ROLE_MASTER_AUTHORITY : Nat := 0x01
def ROLE_MINTER : Nat := 0x02
def ROLE_BURNER : Nat := 0x04
def ROLE_FREEZER : Nat := 0x08
def ROLE_PAUSER : Nat := 0x10
def ROLE_BLACKLISTER : Nat := 0x20
def ROLE_SEIZER : Nat := 0x40

def VALID_ROLE_MASK : Nat := 0x7F

def MAX_NAME_LEN : Nat := 32
def MAX_SYMBOL_LEN : Nat := 10
def MAX_URI_LEN : Nat := 200
def MAX_REASON_LEN : Nat := 128

def MINT_QUOTA_WINDOW_SECONDS : Int := 86400

/-! ### errors.rs -/

inductive StablecoinError where
  | Unauthorized
  | FeatureNotEnabled
  | SystemPaused
  | QuotaExceeded
  | AlreadyBlacklisted
  | NotBlacklisted
  | AccountNotFrozen
  | TargetNotBlacklisted
  | NameTooLong
  | SymbolTooLong
  | UriTooLong
  | InvalidTransferHookProgram
  | MissingExtraAccountMetas
  | InvalidExtraAccountMetas
  | ReasonTooLong
  | InvalidRoles
  | SelfTransfer
  | InsufficientBalance
  | Overflow
  | AccountFrozen
deriving DecidableEq, Repr

/-! ### state.rs -/

structure FeatureFlags where
  permanent_delegate : Bool
  transfer_hook : Bool
  confidential : Bool
  default_frozen : Bool
deriving DecidableEq, Repr

structure StablecoinConfig where
  authority : Pubkey
  mint : Pubkey
  name : String
  symbol : String
  uri : String
  decimals : Nat
  is_paused : Bool
  total_minted : Nat
  total_burned : Nat
  audit_counter : Nat
  features : FeatureFlags
  transfer_hook_program : Option Pubkey
  bump : Nat
deriving DecidableEq, Repr

structure RoleAccount where
  config : Pubkey
  authority : Pubkey
  roles : Nat
  mint_quota : Option Nat
  minted_current_window : Nat
  window_start : Int
  bump : Nat
deriving DecidableEq, Repr

structure BlacklistEntry where
  config : Pubkey
  wallet : Pubkey
  blacklisted_at : Int
  blacklisted_by : Pubkey
  reason : String
  is_active : Bool
  bump : Nat
deriving DecidableEq, Repr

/-- SPL token account state (`spl_token_2022::state::AccountState`),
restricted to the two states the handlers distinguish. -/
inductive AccountState where
  | initialized
  | frozen
deriving DecidableEq, Repr

/-! ### utils.rs -/

/-- `has_any_role(roles, mask) = roles & mask != 0`. -/
def has_any_role (roles mask : Nat) : Bool :=
  roles &&& mask ≠ 0

/-- `require_valid_roles`: `roles & !VALID_ROLE_MASK == 0` with the `u8`
complement `!0x7F = 0x80`. -/
def require_valid_roles (roles : Nat) : Except StablecoinError Unit :=
  if roles &&& 128 = 0 then Except.ok () else Except.error StablecoinError.InvalidRoles

/-! ### instructions/blacklist.rs -/

structure AddToBlacklistArgs where
  wallet : Pubkey
  reason : String
deriving DecidableEq, Repr

/-- Accounts of `AddToBlacklist` as the handler reads them: deserialized
pre-states plus the addresses compared by the handler.  `blacklist_entry`
is the pre-state; a freshly `init_if_needed`-created entry is all zeroes
(in particular `config = Pubkey::default() = 0`, `is_active = false`). -/
structure AddToBlacklistAccounts where
  blacklisterKey : Pubkey
  config : StablecoinConfig
  configKey : Pubkey
  role_account : RoleAccount
  blacklist_entry : BlacklistEntry
  entryBump : Nat
  walletKey : Pubkey
deriving Repr

structure AddToBlacklistResult where
  config : StablecoinConfig
  blacklist_entry : BlacklistEntry
deriving DecidableEq, Repr

/-- `blacklist::add_handler`.  `now` is `Clock::get()?.unix_timestamp`. -/
def add_handler (a : AddToBlacklistAccounts) (args : AddToBlacklistArgs)
    (now : Int) : Except StablecoinError AddToBlacklistResult :=
  if ¬ a.config.features.transfer_hook then Except.error StablecoinError.FeatureNotEnabled
  else if a.role_account.config ≠ a.configKey then Except.error StablecoinError.Unauthorized
  else if ¬ has_any_role a.role_account.roles (ROLE_MASTER_AUTHORITY ||| ROLE_BLACKLISTER) then
    Except.error StablecoinError.Unauthorized
  else if ¬ args.reason.utf8ByteSize ≤ MAX_REASON_LEN then
    Except.error StablecoinError.ReasonTooLong
  else if args.wallet ≠ a.walletKey then Except.error StablecoinError.Unauthorized
  else if a.blacklist_entry.config ≠ 0 ∧ a.blacklist_entry.config ≠ a.configKey then
    Except.error StablecoinError.Unauthorized
  else if a.blacklist_entry.is_active then Except.error StablecoinError.AlreadyBlacklisted
  else
    Except.ok
      { config := a.config
        blacklist_entry :=
          { config := a.configKey
            wallet := args.wallet
            blacklisted_at := now
            blacklisted_by := a.blacklisterKey
            reason := args.reason
            is_active := true
            bump := a.entryBump } }

structure RemoveFromBlacklistAccounts where
  blacklisterKey : Pubkey
  config : StablecoinConfig
  configKey : Pubkey
  role_account : RoleAccount
  blacklist_entry : BlacklistEntry
deriving Repr

structure RemoveFromBlacklistResult where
  config : StablecoinConfig
  blacklist_entry : BlacklistEntry
deriving DecidableEq, Repr

/-- `blacklist::remove_handler`. -/
def remove_handler (a : RemoveFromBlacklistAccounts) :
    Except StablecoinError RemoveFromBlacklistResult :=
  if ¬ a.config.features.transfer_hook then Except.error StablecoinError.FeatureNotEnabled
  else if a.role_account.config ≠ a.configKey then Except.error StablecoinError.Unauthorized
  else if ¬ has_any_role a.role_account.roles (ROLE_MASTER_AUTHORITY ||| ROLE_BLACKLISTER) then
    Except.error StablecoinError.Unauthorized
  else if a.blacklist_entry.config ≠ a.configKey then Except.error StablecoinError.Unauthorized
  else if ¬ a.blacklist_entry.is_active then Except.error StablecoinError.NotBlacklisted
  else
    Except.ok
      { config := a.config
        blacklist_entry := { a.blacklist_entry with is_active := false } }

/-! ### instructions/mint.rs -/

structure MintAccounts where
  minterKey : Pubkey
  config : StablecoinConfig
  configKey : Pubkey
  role_account : RoleAccount
  mintKey : Pubkey
  mintSupply : Nat
  recipientKey : Pubkey
  recipientAtaMint : Pubkey
  recipientAtaOwner : Pubkey
  recipientAtaAmount : Nat
deriving Repr

structure MintResult where
  config : StablecoinConfig
  role_account : RoleAccount
  mintSupply : Nat
  recipientAtaAmount : Nat
deriving DecidableEq, Repr

/-- The quota-window block of `mint::handler` (src lines 71-86): window
reset, `checked_add`, quota comparison, commit. -/
def applyQuota (role : RoleAccount) (amount : Nat) (now : Int) :
    Except StablecoinError RoleAccount :=
  match role.mint_quota with
  | none => Except.ok role
  | some quota =>
    let r :=
      if role.window_start = 0 ∨
          saturatingSubI64 now role.window_start ≥ MINT_QUOTA_WINDOW_SECONDS then
        { role with window_start := now, minted_current_window := 0 }
      else role
    match checkedAddU64 r.minted_current_window amount with
    | none => Except.error StablecoinError.Overflow
    | some newWindowTotal =>
      if newWindowTotal > quota then Except.error StablecoinError.QuotaExceeded
      else Except.ok { r with minted_current_window := newWindowTotal }

/-- `mint::handler`.  The `mint_to` CPI and the event's
`supply.checked_add(amount)` share the same overflow condition, modelled
once as `checkedAddU64 mintSupply amount`. -/
def mint_handler (a : MintAccounts) (amount : Nat) (now : Int) :
    Except StablecoinError MintResult :=
  if a.config.is_paused then Except.error StablecoinError.SystemPaused
  else if a.role_account.config ≠ a.configKey then Except.error StablecoinError.Unauthorized
  else if ¬ has_any_role a.role_account.roles (ROLE_MASTER_AUTHORITY ||| ROLE_MINTER) then
    Except.error StablecoinError.Unauthorized
  else if a.config.mint ≠ a.mintKey then Except.error StablecoinError.Unauthorized
  else if a.recipientAtaMint ≠ a.mintKey then Except.error StablecoinError.Unauthorized
  else if a.recipientAtaOwner ≠ a.recipientKey then Except.error StablecoinError.Unauthorized
  else
    match applyQuota a.role_account amount now with
    | Except.error e => Except.error e
    | Except.ok role =>
      match checkedAddU64 a.mintSupply amount with
      | none => Except.error StablecoinError.Overflow
      | some newSupply =>
        match checkedAddU64 a.config.total_minted amount with
        | none => Except.error StablecoinError.Overflow
        | some newTotalMinted =>
          match checkedAddU64 a.config.audit_counter 1 with
          | none => Except.error StablecoinError.Overflow
          | some newAudit =>
            Except.ok
              { config :=
                  { a.config with total_minted := newTotalMinted, audit_counter := newAudit }
                role_account := role
                mintSupply := newSupply
                recipientAtaAmount := a.recipientAtaAmount + amount }

/-! ### instructions/burn.rs -/

structure BurnAccounts where
  burnerKey : Pubkey
  config : StablecoinConfig
  configKey : Pubkey
  role_account : RoleAccount
  mintKey : Pubkey
  mintSupply : Nat
  burnerAtaMint : Pubkey
  burnerAtaOwner : Pubkey
  burnerAtaAmount : Nat
deriving Repr

structure BurnResult where
  config : StablecoinConfig
  mintSupply : Nat
  burnerAtaAmount : Nat
deriving DecidableEq, Repr

/-- `burn::handler`.  The `burn` CPI and the event's
`supply.checked_sub(amount)` share the underflow condition, modelled as
`checkedSubU64 mintSupply amount`. -/
def burn_handler (a : BurnAccounts) (amount : Nat) :
    Except StablecoinError BurnResult :=
  if a.config.is_paused then Except.error StablecoinError.SystemPaused
  else if a.role_account.config ≠ a.configKey then Except.error StablecoinError.Unauthorized
  else if ¬ has_any_role a.role_account.roles (ROLE_MASTER_AUTHORITY ||| ROLE_BURNER) then
    Except.error StablecoinError.Unauthorized
  else if a.config.mint ≠ a.mintKey then Except.error StablecoinError.Unauthorized
  else if a.burnerAtaMint ≠ a.mintKey then Except.error StablecoinError.Unauthorized
  else if a.burnerAtaOwner ≠ a.burnerKey then Except.error StablecoinError.Unauthorized
  else if ¬ a.burnerAtaAmount ≥ amount then Except.error StablecoinError.InsufficientBalance
  else
    match checkedSubU64 a.mintSupply amount with
    | none => Except.error StablecoinError.Overflow
    | some newSupply =>
      match checkedAddU64 a.config.total_burned amount with
      | none => Except.error StablecoinError.Overflow
      | some newTotalBurned =>
        match checkedAddU64 a.config.audit_counter 1 with
        | none => Except.error StablecoinError.Overflow
        | some newAudit =>
          Except.ok
            { config :=
                { a.config with total_burned := newTotalBurned, audit_counter := newAudit }
              mintSupply := newSupply
              burnerAtaAmount := a.burnerAtaAmount - amount }

/-! ### instructions/freeze.rs -/

structure FreezeAccounts where
  freezerKey : Pubkey
  config : StablecoinConfig
  configKey : Pubkey
  role_account : RoleAccount
  mintKey : Pubkey
  targetAtaMint : Pubkey
  targetAtaState : AccountState
deriving Repr

structure FreezeResult where
  config : StablecoinConfig
  targetAtaState : AccountState
deriving DecidableEq, Repr

/-- `freeze::freeze_handler`.  The `freeze_account` CPI is the external
ledger's state flip. -/
def freeze_handler (a : FreezeAccounts) : Except StablecoinError FreezeResult :=
  if a.role_account.config ≠ a.configKey then Except.error StablecoinError.Unauthorized
  else if ¬ has_any_role a.role_account.roles (ROLE_MASTER_AUTHORITY ||| ROLE_FREEZER) then
    Except.error StablecoinError.Unauthorized
  else if a.config.mint ≠ a.mintKey then Except.error StablecoinError.Unauthorized
  else if a.targetAtaMint ≠ a.mintKey then Except.error StablecoinError.Unauthorized
  else
    match checkedAddU64 a.config.audit_counter 1 with
    | none => Except.error StablecoinError.Overflow
    | some newAudit =>
      Except.ok
        { config := { a.config with audit_counter := newAudit }
          targetAtaState := AccountState.frozen }

/-- `freeze::thaw_handler`. -/
def thaw_handler (a : FreezeAccounts) : Except StablecoinError FreezeResult :=
  if a.role_account.config ≠ a.configKey then Except.error StablecoinError.Unauthorized
  else if ¬ has_any_role a.role_account.roles (ROLE_MASTER_AUTHORITY ||| ROLE_FREEZER) then
    Except.error StablecoinError.Unauthorized
  else if a.config.mint ≠ a.mintKey then Except.error StablecoinError.Unauthorized
  else if a.targetAtaMint ≠ a.mintKey then Except.error StablecoinError.Unauthorized
  else
    match checkedAddU64 a.config.audit_counter 1 with
    | none => Except.error StablecoinError.Overflow
    | some newAudit =>
      Except.ok
        { config := { a.config with audit_counter := newAudit }
          targetAtaState := AccountState.initialized }

/-! ### instructions/pause.rs -/

structure PauseAccounts where
  pauserKey : Pubkey
  config : StablecoinConfig
  configKey : Pubkey
  role_account : RoleAccount
deriving Repr

structure PauseResult where
  config : StablecoinConfig
deriving DecidableEq, Repr

/-- `pause::pause_handler`. -/
def pause_handler (a : PauseAccounts) : Except StablecoinError PauseResult :=
  if a.role_account.config ≠ a.configKey then Except.error StablecoinError.Unauthorized
  else if ¬ has_any_role a.role_account.roles (ROLE_MASTER_AUTHORITY ||| ROLE_PAUSER) then
    Except.error StablecoinError.Unauthorized
  else
    match checkedAddU64 a.config.audit_counter 1 with
    | none => Except.error StablecoinError.Overflow
    | some newAudit =>
      Except.ok { config := { a.config with is_paused := true, audit_counter := newAudit } }

/-- `pause::unpause_handler`. -/
def unpause_handler (a : PauseAccounts) : Except StablecoinError PauseResult :=
  if a.role_account.config ≠ a.configKey then Except.error StablecoinError.Unauthorized
  else if ¬ has_any_role a.role_account.roles (ROLE_MASTER_AUTHORITY ||| ROLE_PAUSER) then
    Except.error StablecoinError.Unauthorized
  else
    match checkedAddU64 a.config.audit_counter 1 with
    | none => Except.error StablecoinError.Overflow
    | some newAudit =>
      Except.ok { config := { a.config with is_paused := false, audit_counter := newAudit } }

/-! ### instructions/roles.rs -/

structure UpdateRolesArgs where
  target : Pubkey
  roles : Nat
  mint_quota : Option Nat
deriving DecidableEq, Repr

/-- Accounts of `UpdateRoles`.  `target_role_account` is the pre-state;
an `init_if_needed`-created record is all zeroes. -/
structure UpdateRolesAccounts where
  authorityKey : Pubkey
  config : StablecoinConfig
  configKey : Pubkey
  role_account : RoleAccount
  target_role_account : RoleAccount
  targetKey : Pubkey
  targetBump : Nat
deriving Repr

structure UpdateRolesResult where
  config : StablecoinConfig
  target_role_account : RoleAccount
deriving DecidableEq, Repr

/-- `roles::update_roles_handler`. -/
def update_roles_handler (a : UpdateRolesAccounts) (args : UpdateRolesArgs) :
    Except StablecoinError UpdateRolesResult :=
  if a.role_account.config ≠ a.configKey then Except.error StablecoinError.Unauthorized
  else if ¬ has_any_role a.role_account.roles ROLE_MASTER_AUTHORITY then
    Except.error StablecoinError.Unauthorized
  else if ¬ args.roles &&& 128 = 0 then Except.error StablecoinError.InvalidRoles
  else if args.target ≠ a.targetKey then Except.error StablecoinError.Unauthorized
  else if ¬ a.config.features.transfer_hook ∧
      args.roles &&& (ROLE_BLACKLISTER ||| ROLE_SEIZER) ≠ 0 then
    Except.error StablecoinError.FeatureNotEnabled
  else
    Except.ok
      { config := a.config
        target_role_account :=
          { config := a.configKey
            authority := a.targetKey
            roles := args.roles
            mint_quota := if args.roles &&& ROLE_MINTER ≠ 0 then args.mint_quota else none
            minted_current_window := 0
            window_start := 0
            bump := a.targetBump } }

structure UpdateMinterArgs where
  new_quota : Nat
deriving DecidableEq, Repr

structure UpdateMinterAccounts where
  authorityKey : Pubkey
  config : StablecoinConfig
  configKey : Pubkey
  role_account : RoleAccount
  target_role_account : RoleAccount
deriving Repr

structure UpdateMinterResult where
  config : StablecoinConfig
  target_role_account : RoleAccount
deriving DecidableEq, Repr

/-- `roles::update_minter_handler`. -/
def update_minter_handler (a : UpdateMinterAccounts) (args : UpdateMinterArgs) :
    Except StablecoinError UpdateMinterResult :=
  if a.role_account.config ≠ a.configKey then Except.error StablecoinError.Unauthorized
  else if ¬ has_any_role a.role_account.roles ROLE_MASTER_AUTHORITY then
    Except.error StablecoinError.Unauthorized
  else if ¬ a.target_role_account.roles &&& ROLE_MINTER ≠ 0 then
    Except.error StablecoinError.InvalidRoles
  else
    Except.ok
      { config := a.config
        target_role_account :=
          { a.target_role_account with mint_quota := some args.new_quota } }

/-- Accounts of `TransferAuthority`.  `new_role_account` is the pre-state;
an `init_if_needed`-created record is all zeroes. -/
structure TransferAuthorityAccounts where
  currentAuthorityKey : Pubkey
  config : StablecoinConfig
  configKey : Pubkey
  current_role_account : RoleAccount
  new_role_account : RoleAccount
  newAuthorityKey : Pubkey
  newBump : Nat
deriving Repr

structure TransferAuthorityResult where
  config : StablecoinConfig
  current_role_account : RoleAccount
  new_role_account : RoleAccount
deriving DecidableEq, Repr

/-- `roles::transfer_authority_handler`.  The `u8` complement
`!ROLE_MASTER_AUTHORITY = 0xFE` appears as `254`. -/
def transfer_authority_handler (a : TransferAuthorityAccounts) :
    Except StablecoinError TransferAuthorityResult :=
  if a.current_role_account.config ≠ a.configKey then Except.error StablecoinError.Unauthorized
  else if ¬ has_any_role a.current_role_account.roles ROLE_MASTER_AUTHORITY then
    Except.error StablecoinError.Unauthorized
  else if a.newAuthorityKey = a.currentAuthorityKey then
    Except.error StablecoinError.SelfTransfer
  else
    Except.ok
      { config := { a.config with authority := a.newAuthorityKey }
        current_role_account :=
          { a.current_role_account with
              roles := a.current_role_account.roles &&& 254 }
        new_role_account :=
          { a.new_role_account with
              config := a.configKey
              authority := a.newAuthorityKey
              roles := a.new_role_account.roles ||| ROLE_MASTER_AUTHORITY
              bump := a.newBump } }

/-! ### instructions/seize.rs -/

structure SeizeAccounts where
  seizerKey : Pubkey
  config : StablecoinConfig
  configKey : Pubkey
  role_account : RoleAccount
  mintKey : Pubkey
  targetAtaOwner : Pubkey
  targetAtaMint : Pubkey
  targetAtaAmount : Nat
  targetAtaState : AccountState
  treasuryAtaAmount : Nat
  blacklist_entry : BlacklistEntry
deriving Repr

structure SeizeResult where
  config : StablecoinConfig
  targetAtaAmount : Nat
  targetAtaState : AccountState
  treasuryAtaAmount : Nat
deriving DecidableEq, Repr

/-- `seize::handler`: all `require!` guards precede the thaw → transfer →
refreeze CPI sequence, so a failed guard leaves every account untouched.
On success the target's entire balance moves to the treasury and the target
ends refrozen. -/
def seize_handler (a : SeizeAccounts) : Except StablecoinError SeizeResult :=
  if a.role_account.config ≠ a.configKey then Except.error StablecoinError.Unauthorized
  else if ¬ has_any_role a.role_account.roles (ROLE_MASTER_AUTHORITY ||| ROLE_SEIZER) then
    Except.error StablecoinError.Unauthorized
  else if ¬ a.config.features.permanent_delegate then
    Except.error StablecoinError.FeatureNotEnabled
  else if a.blacklist_entry.config ≠ a.configKey then Except.error StablecoinError.Unauthorized
  else if ¬ a.blacklist_entry.is_active then Except.error StablecoinError.TargetNotBlacklisted
  else if a.blacklist_entry.wallet ≠ a.targetAtaOwner then
    Except.error StablecoinError.Unauthorized
  else if a.targetAtaMint ≠ a.mintKey then Except.error StablecoinError.Unauthorized
  else if a.targetAtaState ≠ AccountState.frozen then
    Except.error StablecoinError.AccountNotFrozen
  else if a.config.mint ≠ a.mintKey then Except.error StablecoinError.Unauthorized
  else
    match checkedAddU64 a.config.audit_counter 1 with
    | none => Except.error StablecoinError.Overflow
    | some newAudit =>
      Except.ok
        { config := { a.config with audit_counter := newAudit }
          targetAtaAmount := 0
          targetAtaState := AccountState.frozen
          treasuryAtaAmount := a.treasuryAtaAmount + a.targetAtaAmount }

/-! ### instructions/initialize.rs

Only the validation and the record assignments are embedded; the mint-setup
CPIs into the external token ledger configure collaborator state and are out
of the policy records' scope. -/

structure InitializeArgs where
  name : String
  symbol : String
  uri : String
  decimals : Nat
  enable_permanent_delegate : Bool
  enable_transfer_hook : Bool
  default_account_frozen : Bool
  transfer_hook_program : Option Pubkey
deriving DecidableEq, Repr

structure InitializeAccounts where
  authorityKey : Pubkey
  mintKey : Pubkey
  configKey : Pubkey
  configBump : Nat
  roleBump : Nat
deriving Repr

structure InitializeResult where
  config : StablecoinConfig
  role_account : RoleAccount
deriving DecidableEq, Repr

/-- `initialize::handler`, restricted to argument validation and the
`config`/`role_account` field assignments (src lines 84-99 and 237-268). -/
def initialize_handler (a : InitializeAccounts) (args : InitializeArgs) :
    Except StablecoinError InitializeResult :=
  if ¬ args.name.utf8ByteSize ≤ MAX_NAME_LEN then Except.error StablecoinError.NameTooLong
  else if ¬ args.symbol.utf8ByteSize ≤ MAX_SYMBOL_LEN then
    Except.error StablecoinError.SymbolTooLong
  else if ¬ args.uri.utf8ByteSize ≤ MAX_URI_LEN then Except.error StablecoinError.UriTooLong
  else if args.enable_transfer_hook ∧ args.transfer_hook_program = none then
    Except.error StablecoinError.InvalidTransferHookProgram
  else
    Except.ok
      { config :=
          { authority := a.authorityKey
            mint := a.mintKey
            name := args.name
            symbol := args.symbol
            uri := args.uri
            decimals := args.decimals
            is_paused := false
            total_minted := 0
            total_burned := 0
            audit_counter := 0
            features :=
              { permanent_delegate := args.enable_permanent_delegate
                transfer_hook := args.enable_transfer_hook
                confidential := false
                default_frozen := args.default_account_frozen }
            transfer_hook_program :=
              if args.enable_transfer_hook then args.transfer_hook_program else none
            bump := a.configBump }
        role_account :=
          { config := a.configKey
            authority := a.authorityKey
            roles := ROLE_MASTER_AUTHORITY
            mint_quota := none
            minted_current_window := 0
            window_start := 0
            bump := a.roleBump } }

/-! ### programs/transfer-hook/src/lib.rs

The hook deserializes raw accounts, so an account is modelled as either
empty data or data that either deserializes to a record or fails to.
External library calls (`get_extra_account_metas_address`,
`ExtraAccountMetaList::check_account_infos`) are inputs: the expected PDA
address and the byte-for-byte account-list comparison's verdict. -/

inductive TransferHookError where
  | TransferDenied
  | FeatureNotEnabled
  | InvalidExtraAccountMetas
  | InvalidCoreProgram
  | InvalidConfig
  | InvalidHookProgram
  | InvalidBlacklistEntry
deriving DecidableEq, Repr

/-- A failure surfaced by `execute_handler`: either one of the hook's own
error codes, or an Anchor deserialization error propagated by
`try_deserialize` (`?`). -/
inductive HookFailure where
  | hookError (e : TransferHookError)
  | deserializationError
deriving DecidableEq, Repr

/-- A raw blacklist-entry account as the hook sees it: empty data, or
non-empty data with its owner and its `try_deserialize` outcome (`none` =
the bytes do not deserialize to a `BlacklistEntry`). -/
inductive BlAccount where
  | empty
  | record (owner : Pubkey) (data : Option BlacklistEntry)
deriving DecidableEq, Repr

/-- A raw config account: owner, address, `try_deserialize` outcome. -/
structure RawConfigAccount where
  owner : Pubkey
  key : Pubkey
  data : Option StablecoinConfig
deriving Repr

/-- The fixed core-program id from `stablecoin_core_program_id()`
(`from_str` of a hard-coded base58 string), embedded as a distinguished
abstract identifier. -/
def stablecoinCoreProgramId : Pubkey := 5000001

structure ExecuteAccounts where
  mintKey : Pubkey
  sourceOwnerKey : Pubkey
  extraMetasOwner : Pubkey
  extraMetasKey : Pubkey
  coreProgramKey : Pubkey
  configAccount : RawConfigAccount
  source_blacklist_entry : BlAccount
  destination_blacklist_entry : BlAccount
deriving Repr

/-- `check_blacklist`: empty data approves; undeserializable data errors;
a deserialized entry denies iff `is_active`. -/
def check_blacklist (a : BlAccount) : Except HookFailure Unit :=
  match a with
  | BlAccount.empty => Except.ok ()
  | BlAccount.record _ none => Except.error HookFailure.deserializationError
  | BlAccount.record _ (some entry) =>
    if entry.is_active then Except.error (HookFailure.hookError TransferHookError.TransferDenied)
    else Except.ok ()

/-- `data_is_empty()` for the modelled raw account. -/
def BlAccount.dataIsEmpty : BlAccount → Bool
  | BlAccount.empty => true
  | BlAccount.record _ _ => false

/-- The guard applied to each non-empty blacklist account (src lines
194-205): its owner must be the core program.  Empty accounts pass. -/
def BlAccount.ownerMismatch (coreId : Pubkey) : BlAccount → Bool
  | BlAccount.empty => false
  | BlAccount.record owner _ => owner ≠ coreId

/-- `execute_handler`.  `programId` is the hook's own program id,
`expectedExtraMetas` models `get_extra_account_metas_address(mint,
program_id)`, and `extraMetasCheckOk` models the verdict of
`ExtraAccountMetaList::check_account_infos`. -/
def execute_handler (programId : Pubkey) (a : ExecuteAccounts)
    (expectedExtraMetas : Pubkey) (extraMetasCheckOk : Bool) :
    Except HookFailure Unit :=
  if a.extraMetasOwner ≠ programId then
    Except.error (HookFailure.hookError TransferHookError.InvalidExtraAccountMetas)
  else if a.extraMetasKey ≠ expectedExtraMetas then
    Except.error (HookFailure.hookError TransferHookError.InvalidExtraAccountMetas)
  else if a.coreProgramKey ≠ stablecoinCoreProgramId then
    Except.error (HookFailure.hookError TransferHookError.InvalidCoreProgram)
  else if a.configAccount.owner ≠ stablecoinCoreProgramId then
    Except.error (HookFailure.hookError TransferHookError.InvalidConfig)
  else
    match a.configAccount.data with
    | none => Except.error HookFailure.deserializationError
    | some config =>
      if ¬ config.features.transfer_hook then
        Except.error (HookFailure.hookError TransferHookError.FeatureNotEnabled)
      else if config.transfer_hook_program ≠ some programId then
        Except.error (HookFailure.hookError TransferHookError.InvalidHookProgram)
      else if config.mint ≠ a.mintKey then
        Except.error (HookFailure.hookError TransferHookError.InvalidConfig)
      else if a.source_blacklist_entry.ownerMismatch stablecoinCoreProgramId then
        Except.error (HookFailure.hookError TransferHookError.InvalidBlacklistEntry)
      else if a.destination_blacklist_entry.ownerMismatch stablecoinCoreProgramId then
        Except.error (HookFailure.hookError TransferHookError.InvalidBlacklistEntry)
      else if ¬ extraMetasCheckOk then
        Except.error (HookFailure.hookError TransferHookError.InvalidExtraAccountMetas)
      else if a.sourceOwnerKey ≠ a.configAccount.key then
        match check_blacklist a.source_blacklist_entry with
        | Except.error e => Except.error e
        | Except.ok _ => check_blacklist a.destination_blacklist_entry
      else
        Except.ok ()

/-! ### Helper lemmas -/

set_option maxRecDepth 8192 in
/-- `u8` bitmask facts about the master-authority bit `0x01`, its `u8`
complement `0xFE = 254`, and the invalid-bit mask `!0x7F = 0x80 = 128`,
checked over all 256 byte values. -/
theorem u8_bit_facts : ∀ r : Fin 256,
    ((r : Nat) &&& 254) &&& 1 = 0 ∧
    ((r : Nat) ||| 1) &&& 1 = 1 ∧
    ((r : Nat) &&& 254) &&& 254 = (r : Nat) &&& 254 ∧
    ((r : Nat) ||| 1) &&& 254 = (r : Nat) &&& 254 ∧
    ((r : Nat) &&& 128 = 0 →
      ((r : Nat) &&& 254) &&& 128 = 0 ∧ ((r : Nat) ||| 1) &&& 128 = 0) := by
  decide

/-- For operands in `i64` range, comparing `i64::saturating_sub` against the
86400-second window agrees with the mathematical difference. -/
theorem saturatingSub_window_iff (now ws : Int)
    (h1 : I64_MIN ≤ now) (h2 : now ≤ I64_MAX)
    (h3 : I64_MIN ≤ ws) (h4 : ws ≤ I64_MAX) :
    MINT_QUOTA_WINDOW_SECONDS ≤ saturatingSubI64 now ws ↔ 86400 ≤ now - ws := by
  simp only [saturatingSubI64, MINT_QUOTA_WINDOW_SECONDS, I64_MIN, I64_MAX] at *
  omega

/-! ### Shared sample values for witnesses -/

def sampleFlags : FeatureFlags :=
  { permanent_delegate := true
    transfer_hook := true
    confidential := false
    default_frozen := false }

def sampleConfig : StablecoinConfig :=
  { authority := 1
    mint := 2
    name := "USD"
    symbol := "USD"
    uri := "u"
    decimals := 6
    is_paused := false
    total_minted := 0
    total_burned := 0
    audit_counter := 5
    features := sampleFlags
    transfer_hook_program := some 900
    bump := 253 }

/-- A role record for holder 1 with the master-authority bit, bound to the
config at address 10. -/
def sampleMasterRole : RoleAccount :=
  { config := 10
    authority := 1
    roles := 1
    mint_quota := none
    minted_current_window := 0
    window_start := 0
    bump := 252 }

/-- An active blacklist entry for wallet 33, bound to the config at
address 10. -/
def sampleActiveEntry : BlacklistEntry :=
  { config := 10
    wallet := 33
    blacklisted_at := 100
    blacklisted_by := 1
    reason := "fraud"
    is_active := true
    bump := 251 }

/-! ### C6 -/

/-- C6: `add_to_blacklist` fails with `AlreadyBlacklisted` when the entry is
active; when the entry is inactive it is reactivated in place with
`is_active`, `reason`, `blacklisted_at`, `blacklisted_by` overwritten (no
second record); `remove_from_blacklist` fails with `NotBlacklisted` on an
inactive entry and otherwise flips only `is_active` to `false`, preserving
`reason` and the timestamps.  Failing paths return before any write, so the
entry is unchanged by transaction atomicity. -/
theorem blacklist_lifecycle
    (a : AddToBlacklistAccounts) (args : AddToBlacklistArgs) (now : Int)
    (r : RemoveFromBlacklistAccounts)
    (hfeat : a.config.features.transfer_hook = true)
    (hrc : a.role_account.config = a.configKey)
    (hrole : has_any_role a.role_account.roles
      (ROLE_MASTER_AUTHORITY ||| ROLE_BLACKLISTER) = true)
    (hreason : args.reason.utf8ByteSize ≤ MAX_REASON_LEN)
    (hwallet : args.wallet = a.walletKey)
    (hcfg : a.blacklist_entry.config = 0 ∨ a.blacklist_entry.config = a.configKey)
    (hfeatR : r.config.features.transfer_hook = true)
    (hrcR : r.role_account.config = r.configKey)
    (hroleR : has_any_role r.role_account.roles
      (ROLE_MASTER_AUTHORITY ||| ROLE_BLACKLISTER) = true)
    (hcfgR : r.blacklist_entry.config = r.configKey) :
    (a.blacklist_entry.is_active = true →
      add_handler a args now = Except.error StablecoinError.AlreadyBlacklisted) ∧
    (a.blacklist_entry.is_active = false →
      add_handler a args now = Except.ok
        { config := a.config
          blacklist_entry :=
            { config := a.configKey
              wallet := args.wallet
              blacklisted_at := now
              blacklisted_by := a.blacklisterKey
              reason := args.reason
              is_active := true
              bump := a.entryBump } }) ∧
    (r.blacklist_entry.is_active = false →
      remove_handler r = Except.error StablecoinError.NotBlacklisted) ∧
    (r.blacklist_entry.is_active = true →
      remove_handler r = Except.ok
        { config := r.config
          blacklist_entry := { r.blacklist_entry with is_active := false } }) := by
  refine ⟨?_, ?_, ?_, ?_⟩ <;> intro hact
  · rcases hcfg with h0 | h0 <;>
      simp [add_handler, hfeat, hrc, hrole, hreason, hwallet, h0, hact]
  · rcases hcfg with h0 | h0 <;>
      simp [add_handler, hfeat, hrc, hrole, hreason, hwallet, h0, hact]
  · simp [remove_handler, hfeatR, hrcR, hroleR, hcfgR, hact]
  · simp [remove_handler, hfeatR, hrcR, hroleR, hcfgR, hact]

/-- Witness for C6 at concrete accounts: an active entry makes `add` fail
with `AlreadyBlacklisted`, and an active entry is deactivated in place by
`remove`. -/
theorem blacklist_lifecycle_witness :
    add_handler
      { blacklisterKey := 1, config := sampleConfig, configKey := 10
        role_account := sampleMasterRole, blacklist_entry := sampleActiveEntry
        entryBump := 251, walletKey := 33 }
      { wallet := 33, reason := "x" } 200 =
      Except.error StablecoinError.AlreadyBlacklisted ∧
    remove_handler
      { blacklisterKey := 1, config := sampleConfig, configKey := 10
        role_account := sampleMasterRole, blacklist_entry := sampleActiveEntry } =
      Except.ok
        { config := sampleConfig
          blacklist_entry := { sampleActiveEntry with is_active := false } } := by
  have h := blacklist_lifecycle
    { blacklisterKey := 1, config := sampleConfig, configKey := 10
      role_account := sampleMasterRole, blacklist_entry := sampleActiveEntry
      entryBump := 251, walletKey := 33 }
    { wallet := 33, reason := "x" } 200
    { blacklisterKey := 1, config := sampleConfig, configKey := 10
      role_account := sampleMasterRole, blacklist_entry := sampleActiveEntry }
    (by decide) (by decide) (by decide) (by decide) (by decide)
    (Or.inr (by decide)) (by decide) (by decide) (by decide) (by decide)
  exact ⟨h.1 (by decide), h.2.2.2 (by decide)⟩

/-! ### C9 -/

/-- C9: every successful `update_roles` zeroes the target record's
`minted_current_window` and `window_start`, and stores the supplied quota
only when the minter bit is granted (otherwise `None`) — so re-granting the
minter role mid-window erases the window's minted amount. -/
theorem update_roles_resets_window
    (a : UpdateRolesAccounts) (args : UpdateRolesArgs) (res : UpdateRolesResult)
    (h : update_roles_handler a args = Except.ok res) :
    res.target_role_account.minted_current_window = 0 ∧
    res.target_role_account.window_start = 0 ∧
    res.target_role_account.mint_quota =
      (if args.roles &&& ROLE_MINTER ≠ 0 then args.mint_quota else none) := by
  unfold update_roles_handler at h
  split_ifs at h <;> injection h with h <;> subst h <;> simp_all

/-- Witness for C9: granting roles `0x22` (minter + blacklister) with quota
1000 to holder 7 resets the window fields and stores the quota. -/
theorem update_roles_resets_window_witness :
    (UpdateRolesResult.target_role_account
        { config := sampleConfig
          target_role_account :=
            { config := 10, authority := 7, roles := 34, mint_quota := some 1000
              minted_current_window := 0, window_start := 0, bump := 250 } }).minted_current_window
      = 0 ∧
    (UpdateRolesResult.target_role_account
        { config := sampleConfig
          target_role_account :=
            { config := 10, authority := 7, roles := 34, mint_quota := some 1000
              minted_current_window := 0, window_start := 0, bump := 250 } }).window_start
      = 0 ∧
    (UpdateRolesResult.target_role_account
        { config := sampleConfig
          target_role_account :=
            { config := 10, authority := 7, roles := 34, mint_quota := some 1000
              minted_current_window := 0, window_start := 0, bump := 250 } }).mint_quota
      = (if (34 : Nat) &&& ROLE_MINTER ≠ 0 then some 1000 else none) :=
  update_roles_resets_window
    { authorityKey := 1, config := sampleConfig, configKey := 10
      role_account := sampleMasterRole
      target_role_account :=
        { config := 10, authority := 7, roles := 2, mint_quota := some 50
          minted_current_window := 42, window_start := 77, bump := 250 }
      targetKey := 7, targetBump := 250 }
    { target := 7, roles := 34, mint_quota := some 1000 }
    { config := sampleConfig
      target_role_account :=
        { config := 10, authority := 7, roles := 34, mint_quota := some 1000
          minted_current_window := 0, window_start := 0, bump := 250 } }
    (by decide)

/-! ### C8 -/

/-- C8: a successful `transfer_authority` clears the master-authority bit
(`&= !0x01`, i.e. `&&& 254`) in the current authority's record, sets it
(`|= 0x01`) in the new authority's record, and points `config.authority` at
the new authority; a transfer to the calling authority itself fails with
`SelfTransfer` before any write. -/
theorem transfer_authority_moves_master
    (a : TransferAuthorityAccounts)
    (hc : a.current_role_account.config = a.configKey)
    (hm : has_any_role a.current_role_account.roles ROLE_MASTER_AUTHORITY = true)
    (hcur : a.current_role_account.roles < 256)
    (hnew : a.new_role_account.roles < 256) :
    (a.newAuthorityKey = a.currentAuthorityKey →
      transfer_authority_handler a = Except.error StablecoinError.SelfTransfer) ∧
    (a.newAuthorityKey ≠ a.currentAuthorityKey →
      transfer_authority_handler a = Except.ok
        { config := { a.config with authority := a.newAuthorityKey }
          current_role_account :=
            { a.current_role_account with
                roles := a.current_role_account.roles &&& 254 }
          new_role_account :=
            { a.new_role_account with
                config := a.configKey
                authority := a.newAuthorityKey
                roles := a.new_role_account.roles ||| ROLE_MASTER_AUTHORITY
                bump := a.newBump } } ∧
      (a.current_role_account.roles &&& 254) &&& ROLE_MASTER_AUTHORITY = 0 ∧
      (a.new_role_account.roles ||| ROLE_MASTER_AUTHORITY) &&& ROLE_MASTER_AUTHORITY = 1) := by
  constructor
  · intro he
    simp [transfer_authority_handler, hc, hm, he]
  · intro hne
    refine ⟨by simp [transfer_authority_handler, hc, hm, hne], ?_, ?_⟩
    · exact (u8_bit_facts ⟨a.current_role_account.roles, hcur⟩).1
    · exact (u8_bit_facts ⟨a.new_role_account.roles, hnew⟩).2.1

/-- Witness for C8: authority 1 (master) hands over to holder 8; to self it
fails with `SelfTransfer`. -/
theorem transfer_authority_moves_master_witness :
    transfer_authority_handler
      { currentAuthorityKey := 1, config := sampleConfig, configKey := 10
        current_role_account := sampleMasterRole
        new_role_account :=
          { config := 0, authority := 0, roles := 0, mint_quota := none
            minted_current_window := 0, window_start := 0, bump := 0 }
        newAuthorityKey := 8, newBump := 249 } =
      Except.ok
        { config := { sampleConfig with authority := 8 }
          current_role_account := { sampleMasterRole with roles := 1 &&& 254 }
          new_role_account :=
            { config := 10, authority := 8, roles := 0 ||| ROLE_MASTER_AUTHORITY
              mint_quota := none, minted_current_window := 0, window_start := 0
              bump := 249 } } ∧
    transfer_authority_handler
      { currentAuthorityKey := 1, config := sampleConfig, configKey := 10
        current_role_account := sampleMasterRole
        new_role_account :=
          { config := 0, authority := 0, roles := 0, mint_quota := none
            minted_current_window := 0, window_start := 0, bump := 0 }
        newAuthorityKey := 1, newBump := 249 } =
      Except.error StablecoinError.SelfTransfer := by
  constructor
  · exact ((transfer_authority_moves_master
      { currentAuthorityKey := 1, config := sampleConfig, configKey := 10
        current_role_account := sampleMasterRole
        new_role_account :=
          { config := 0, authority := 0, roles := 0, mint_quota := none
            minted_current_window := 0, window_start := 0, bump := 0 }
        newAuthorityKey := 8, newBump := 249 }
      (by decide) (by decide) (by decide) (by decide)).2 (by decide)).1
  · exact (transfer_authority_moves_master
      { currentAuthorityKey := 1, config := sampleConfig, configKey := 10
        current_role_account := sampleMasterRole
        new_role_account :=
          { config := 0, authority := 0, roles := 0, mint_quota := none
            minted_current_window := 0, window_start := 0, bump := 0 }
        newAuthorityKey := 1, newBump := 249 }
      (by decide) (by decide) (by decide) (by decide)).1 (by decide)

/-! ### C10 -/

/-- C10: a successful `transfer_authority` changes only the
master-authority bit of the two role records: both records' non-master role
bits (`&&& 0xFE`) and their `mint_quota`, `minted_current_window` and
`window_start` fields are unchanged. -/
theorem transfer_authority_frame
    (a : TransferAuthorityAccounts) (res : TransferAuthorityResult)
    (h : transfer_authority_handler a = Except.ok res)
    (hcur : a.current_role_account.roles < 256)
    (hnew : a.new_role_account.roles < 256) :
    res.current_role_account.roles &&& 254 = a.current_role_account.roles &&& 254 ∧
    res.new_role_account.roles &&& 254 = a.new_role_account.roles &&& 254 ∧
    res.current_role_account.mint_quota = a.current_role_account.mint_quota ∧
    res.current_role_account.minted_current_window
      = a.current_role_account.minted_current_window ∧
    res.current_role_account.window_start = a.current_role_account.window_start ∧
    res.new_role_account.mint_quota = a.new_role_account.mint_quota ∧
    res.new_role_account.minted_current_window
      = a.new_role_account.minted_current_window ∧
    res.new_role_account.window_start = a.new_role_account.window_start := by
  unfold transfer_authority_handler at h
  split_ifs at h <;> injection h with h <;> subst h
  exact ⟨(u8_bit_facts ⟨_, hcur⟩).2.2.1, (u8_bit_facts ⟨_, hnew⟩).2.2.2.1,
    rfl, rfl, rfl, rfl, rfl, rfl⟩

/-- Witness for C10 at a concrete transfer: non-master bits and quota
fields of both records survive the hand-over. -/
theorem transfer_authority_frame_witness :
    (TransferAuthorityResult.current_role_account
        { config := { sampleConfig with authority := 8 }
          current_role_account :=
            { config := 10, authority := 1, roles := 5 &&& 254, mint_quota := some 70
              minted_current_window := 3, window_start := 9, bump := 252 }
          new_role_account :=
            { config := 10, authority := 8, roles := 2 ||| 1, mint_quota := some 11
              minted_current_window := 4, window_start := 6, bump := 249 } }).roles &&& 254
      = 5 &&& 254 ∧
    (TransferAuthorityResult.new_role_account
        { config := { sampleConfig with authority := 8 }
          current_role_account :=
            { config := 10, authority := 1, roles := 5 &&& 254, mint_quota := some 70
              minted_current_window := 3, window_start := 9, bump := 252 }
          new_role_account :=
            { config := 10, authority := 8, roles := 2 ||| 1, mint_quota := some 11
              minted_current_window := 4, window_start := 6, bump := 249 } }).roles &&& 254
      = 2 &&& 254 := by
  have h := transfer_authority_frame
    { currentAuthorityKey := 1, config := sampleConfig, configKey := 10
      current_role_account :=
        { config := 10, authority := 1, roles := 5, mint_quota := some 70
          minted_current_window := 3, window_start := 9, bump := 252 }
      new_role_account :=
        { config := 10, authority := 8, roles := 2, mint_quota := some 11
          minted_current_window := 4, window_start := 6, bump := 249 }
      newAuthorityKey := 8, newBump := 249 }
    { config := { sampleConfig with authority := 8 }
      current_role_account :=
        { config := 10, authority := 1, roles := 5 &&& 254, mint_quota := some 70
          minted_current_window := 3, window_start := 9, bump := 252 }
      new_role_account :=
        { config := 10, authority := 8, roles := 2 ||| 1, mint_quota := some 11
          minted_current_window := 4, window_start := 6, bump := 249 } }
    (by decide) (by decide) (by decide)
  exact ⟨h.1, h.2.1⟩

/-! ### C7 -/

/-- C7: the role bitmask stays inside the 7 valid bits (`roles & !0x7F == 0`,
with `!0x7F = 0x80` on `u8`): `update_roles` rejects a mask with the invalid
bit set with `InvalidRoles` and otherwise stores a valid mask;
initialization grants exactly the master-authority bit; `update_minter`
leaves the bitmask untouched; `transfer_authority` only clears
(`&&& 0xFE`) or sets (`||| 0x01`) the master-authority bit, preserving the
invariant. -/
theorem role_bitmask_invariant :
    (∀ (a : UpdateRolesAccounts) (args : UpdateRolesArgs),
      a.role_account.config = a.configKey →
      has_any_role a.role_account.roles ROLE_MASTER_AUTHORITY = true →
      args.roles &&& 128 ≠ 0 →
      update_roles_handler a args = Except.error StablecoinError.InvalidRoles) ∧
    (∀ (a : UpdateRolesAccounts) (args : UpdateRolesArgs) (res : UpdateRolesResult),
      update_roles_handler a args = Except.ok res →
      res.target_role_account.roles &&& 128 = 0) ∧
    (∀ (a : InitializeAccounts) (args : InitializeArgs) (res : InitializeResult),
      initialize_handler a args = Except.ok res →
      res.role_account.roles = ROLE_MASTER_AUTHORITY ∧
      res.role_account.roles &&& 128 = 0) ∧
    (∀ (a : UpdateMinterAccounts) (args : UpdateMinterArgs) (res : UpdateMinterResult),
      update_minter_handler a args = Except.ok res →
      res.target_role_account.roles = a.target_role_account.roles) ∧
    (∀ (a : TransferAuthorityAccounts) (res : TransferAuthorityResult),
      transfer_authority_handler a = Except.ok res →
      res.current_role_account.roles = a.current_role_account.roles &&& 254 ∧
      res.new_role_account.roles = a.new_role_account.roles ||| 1) ∧
    (∀ (a : TransferAuthorityAccounts) (res : TransferAuthorityResult),
      transfer_authority_handler a = Except.ok res →
      a.current_role_account.roles < 256 → a.new_role_account.roles < 256 →
      a.current_role_account.roles &&& 128 = 0 →
      a.new_role_account.roles &&& 128 = 0 →
      res.current_role_account.roles &&& 128 = 0 ∧
      res.new_role_account.roles &&& 128 = 0) := by
  refine ⟨?_, ?_, ?_, ?_, ?_, ?_⟩
  · intro a args hc hm h128
    simp [update_roles_handler, hc, hm, h128]
  · intro a args res h
    unfold update_roles_handler at h
    split_ifs at h <;> injection h with h <;> subst h <;> simp_all
  · intro a args res h
    unfold initialize_handler at h
    split_ifs at h <;> injection h with h <;> subst h <;>
      exact ⟨rfl, (by decide : ROLE_MASTER_AUTHORITY &&& 128 = 0)⟩
  · intro a args res h
    unfold update_minter_handler at h
    split_ifs at h <;> injection h with h <;> subst h <;> rfl
  · intro a res h
    unfold transfer_authority_handler at h
    split_ifs at h <;> injection h with h <;> subst h <;> exact ⟨rfl, rfl⟩
  · intro a res h hcb hnb hci hni
    unfold transfer_authority_handler at h
    split_ifs at h <;> injection h with h <;> subst h
    exact ⟨((u8_bit_facts ⟨_, hcb⟩).2.2.2.2 hci).1, ((u8_bit_facts ⟨_, hnb⟩).2.2.2.2 hni).2⟩

/-- Witness for C7: requesting mask `0x82` is rejected with `InvalidRoles`;
a granted mask `0x22` satisfies the invariant. -/
theorem role_bitmask_invariant_witness :
    update_roles_handler
      { authorityKey := 1, config := sampleConfig, configKey := 10
        role_account := sampleMasterRole
        target_role_account :=
          { config := 0, authority := 0, roles := 0, mint_quota := none
            minted_current_window := 0, window_start := 0, bump := 0 }
        targetKey := 7, targetBump := 250 }
      { target := 7, roles := 130, mint_quota := none } =
      Except.error StablecoinError.InvalidRoles ∧
    (UpdateRolesResult.target_role_account
        { config := sampleConfig
          target_role_account :=
            { config := 10, authority := 7, roles := 34, mint_quota := some 1000
              minted_current_window := 0, window_start := 0, bump := 250 } }).roles &&& 128
      = 0 := by
  constructor
  · exact role_bitmask_invariant.1
      { authorityKey := 1, config := sampleConfig, configKey := 10
        role_account := sampleMasterRole
        target_role_account :=
          { config := 0, authority := 0, roles := 0, mint_quota := none
            minted_current_window := 0, window_start := 0, bump := 0 }
        targetKey := 7, targetBump := 250 }
      { target := 7, roles := 130, mint_quota := none }
      (by decide) (by decide) (by decide)
  · exact role_bitmask_invariant.2.1
      { authorityKey := 1, config := sampleConfig, configKey := 10
        role_account := sampleMasterRole
        target_role_account :=
          { config := 10, authority := 7, roles := 2, mint_quota := some 50
            minted_current_window := 42, window_start := 77, bump := 250 }
        targetKey := 7, targetBump := 250 }
      { target := 7, roles := 34, mint_quota := some 1000 }
      { config := sampleConfig
        target_role_account :=
          { config := 10, authority := 7, roles := 34, mint_quota := some 1000
            minted_current_window := 0, window_start := 0, bump := 250 } }
      (by decide)

/-! ### C3 -/

/-- C3: with the account-identity checks passing and the audit counter not
about to overflow, `seize` succeeds exactly when the permanent-delegate
feature is on, the target account is frozen, and the blacklist entry for
the target's owner is active; dropping the feature gives
`FeatureNotEnabled`, an inactive entry gives `TargetNotBlacklisted`, and an
unfrozen target gives `AccountNotFrozen`.  Every guard precedes the thaw →
transfer → refreeze CPIs, so a failing guard returns with no account
mutated (transaction atomicity). -/
theorem seize_preconditions
    (a : SeizeAccounts)
    (hrc : a.role_account.config = a.configKey)
    (hrole : has_any_role a.role_account.roles
      (ROLE_MASTER_AUTHORITY ||| ROLE_SEIZER) = true)
    (hec : a.blacklist_entry.config = a.configKey)
    (hw : a.blacklist_entry.wallet = a.targetAtaOwner)
    (htm : a.targetAtaMint = a.mintKey)
    (hcm : a.config.mint = a.mintKey)
    (haudit : a.config.audit_counter + 1 < U64_MOD) :
    (a.config.features.permanent_delegate = false →
      seize_handler a = Except.error StablecoinError.FeatureNotEnabled) ∧
    (a.config.features.permanent_delegate = true →
      a.blacklist_entry.is_active = false →
      seize_handler a = Except.error StablecoinError.TargetNotBlacklisted) ∧
    (a.config.features.permanent_delegate = true →
      a.blacklist_entry.is_active = true →
      a.targetAtaState ≠ AccountState.frozen →
      seize_handler a = Except.error StablecoinError.AccountNotFrozen) ∧
    (a.config.features.permanent_delegate = true →
      a.blacklist_entry.is_active = true →
      a.targetAtaState = AccountState.frozen →
      seize_handler a = Except.ok
        { config := { a.config with audit_counter := a.config.audit_counter + 1 }
          targetAtaAmount := 0
          targetAtaState := AccountState.frozen
          treasuryAtaAmount := a.treasuryAtaAmount + a.targetAtaAmount }) := by
  refine ⟨?_, ?_, ?_, ?_⟩
  · intro hf
    simp [seize_handler, hrc, hrole, hf]
  · intro hf hact
    simp [seize_handler, hrc, hrole, hf, hact, hec]
  · intro hf hact hfr
    simp [seize_handler, hrc, hrole, hf, hact, hec, hw, htm, hcm, hfr]
  · intro hf hact hfr
    simp [seize_handler, hrc, hrole, hf, hact, hec, hw, htm, hcm, hfr,
      checkedAddU64, haudit]

/-- Witness for C3: a frozen, actively blacklisted target under an enabled
permanent delegate is seized in full; the same accounts with an inactive
entry fail with `TargetNotBlacklisted`. -/
theorem seize_preconditions_witness :
    seize_handler
      { seizerKey := 1, config := sampleConfig, configKey := 10
        role_account := sampleMasterRole, mintKey := 2
        targetAtaOwner := 33, targetAtaMint := 2, targetAtaAmount := 400
        targetAtaState := AccountState.frozen, treasuryAtaAmount := 60
        blacklist_entry := sampleActiveEntry } =
      Except.ok
        { config := { sampleConfig with audit_counter := sampleConfig.audit_counter + 1 }
          targetAtaAmount := 0
          targetAtaState := AccountState.frozen
          treasuryAtaAmount := 60 + 400 } ∧
    seize_handler
      { seizerKey := 1, config := sampleConfig, configKey := 10
        role_account := sampleMasterRole, mintKey := 2
        targetAtaOwner := 33, targetAtaMint := 2, targetAtaAmount := 400
        targetAtaState := AccountState.frozen, treasuryAtaAmount := 60
        blacklist_entry := { sampleActiveEntry with is_active := false } } =
      Except.error StablecoinError.TargetNotBlacklisted := by
  constructor
  · exact (seize_preconditions
      { seizerKey := 1, config := sampleConfig, configKey := 10
        role_account := sampleMasterRole, mintKey := 2
        targetAtaOwner := 33, targetAtaMint := 2, targetAtaAmount := 400
        targetAtaState := AccountState.frozen, treasuryAtaAmount := 60
        blacklist_entry := sampleActiveEntry }
      (by decide) (by decide) (by decide) (by decide) (by decide) (by decide)
      (by decide)).2.2.2 (by decide) (by decide) (by decide)
  · exact (seize_preconditions
      { seizerKey := 1, config := sampleConfig, configKey := 10
        role_account := sampleMasterRole, mintKey := 2
        targetAtaOwner := 33, targetAtaMint := 2, targetAtaAmount := 400
        targetAtaState := AccountState.frozen, treasuryAtaAmount := 60
        blacklist_entry := { sampleActiveEntry with is_active := false } }
      (by decide) (by decide) (by decide) (by decide) (by decide) (by decide)
      (by decide)).2.1 (by decide) (by decide)

/-! ### C5 -/

/-! ### C5 -/

set_option maxHeartbeats 2000000 in
/-- C5: with `is_paused` set, `mint` and `burn` fail with `SystemPaused` as
their first check (before any mutation); `freeze_account`, `thaw_account`,
`add_to_blacklist`, `remove_from_blacklist`, `seize`, `update_roles`,
`update_minter` and `transfer_authority` read no pause flag: flipping
`is_paused` changes neither the error they fail with nor the result they
succeed with, beyond the flag itself being carried through the otherwise
unchanged config fields. -/
theorem pause_gates_only_mint_and_burn :
    (∀ (a : MintAccounts) (amount : Nat) (now : Int),
      mint_handler { a with config := { a.config with is_paused := true } } amount now =
        Except.error StablecoinError.SystemPaused) ∧
    (∀ (a : BurnAccounts) (amount : Nat),
      burn_handler { a with config := { a.config with is_paused := true } } amount =
        Except.error StablecoinError.SystemPaused) ∧
    (∀ (a : FreezeAccounts) (b : Bool),
      (∀ e, freeze_handler a = Except.error e →
        freeze_handler { a with config := { a.config with is_paused := b } } =
          Except.error e) ∧
      (∀ r, freeze_handler a = Except.ok r →
        freeze_handler { a with config := { a.config with is_paused := b } } =
          Except.ok { r with config := { r.config with is_paused := b } })) ∧
    (∀ (a : FreezeAccounts) (b : Bool),
      (∀ e, thaw_handler a = Except.error e →
        thaw_handler { a with config := { a.config with is_paused := b } } =
          Except.error e) ∧
      (∀ r, thaw_handler a = Except.ok r →
        thaw_handler { a with config := { a.config with is_paused := b } } =
          Except.ok { r with config := { r.config with is_paused := b } })) ∧
    (∀ (a : AddToBlacklistAccounts) (args : AddToBlacklistArgs) (now : Int) (b : Bool),
      (∀ e, add_handler a args now = Except.error e →
        add_handler { a with config := { a.config with is_paused := b } } args now =
          Except.error e) ∧
      (∀ r, add_handler a args now = Except.ok r →
        add_handler { a with config := { a.config with is_paused := b } } args now =
          Except.ok { r with config := { r.config with is_paused := b } })) ∧
    (∀ (a : RemoveFromBlacklistAccounts) (b : Bool),
      (∀ e, remove_handler a = Except.error e →
        remove_handler { a with config := { a.config with is_paused := b } } =
          Except.error e) ∧
      (∀ r, remove_handler a = Except.ok r →
        remove_handler { a with config := { a.config with is_paused := b } } =
          Except.ok { r with config := { r.config with is_paused := b } })) ∧
    (∀ (a : SeizeAccounts) (b : Bool),
      (∀ e, seize_handler a = Except.error e →
        seize_handler { a with config := { a.config with is_paused := b } } =
          Except.error e) ∧
      (∀ r, seize_handler a = Except.ok r →
        seize_handler { a with config := { a.config with is_paused := b } } =
          Except.ok { r with config := { r.config with is_paused := b } })) ∧
    (∀ (a : UpdateRolesAccounts) (args : UpdateRolesArgs) (b : Bool),
      (∀ e, update_roles_handler a args = Except.error e →
        update_roles_handler { a with config := { a.config with is_paused := b } } args =
          Except.error e) ∧
      (∀ r, update_roles_handler a args = Except.ok r →
        update_roles_handler { a with config := { a.config with is_paused := b } } args =
          Except.ok { r with config := { r.config with is_paused := b } })) ∧
    (∀ (a : UpdateMinterAccounts) (args : UpdateMinterArgs) (b : Bool),
      (∀ e, update_minter_handler a args = Except.error e →
        update_minter_handler { a with config := { a.config with is_paused := b } } args =
          Except.error e) ∧
      (∀ r, update_minter_handler a args = Except.ok r →
        update_minter_handler { a with config := { a.config with is_paused := b } } args =
          Except.ok { r with config := { r.config with is_paused := b } })) ∧
    (∀ (a : TransferAuthorityAccounts) (b : Bool),
      (∀ e, transfer_authority_handler a = Except.error e →
        transfer_authority_handler { a with config := { a.config with is_paused := b } } =
          Except.error e) ∧
      (∀ r, transfer_authority_handler a = Except.ok r →
        transfer_authority_handler { a with config := { a.config with is_paused := b } } =
          Except.ok { r with config := { r.config with is_paused := b } })) := by
  refine ⟨?_, ?_, ?_, ?_, ?_, ?_, ?_, ?_, ?_, ?_⟩
  · intro a amount now
    unfold mint_handler
    dsimp only
    rfl
  · intro a amount
    unfold burn_handler
    dsimp only
    rfl
  · intro a b
    constructor <;> intro x h <;>
      unfold freeze_handler at h ⊢ <;> dsimp only at h ⊢ <;>
        cases hc : checkedAddU64 a.config.audit_counter 1 <;> rw [hc] at h <;>
          split_ifs at h <;> injection h with h <;> subst h <;> simp_all
  · intro a b
    constructor <;> intro x h <;>
      unfold thaw_handler at h ⊢ <;> dsimp only at h ⊢ <;>
        cases hc : checkedAddU64 a.config.audit_counter 1 <;> rw [hc] at h <;>
          split_ifs at h <;> injection h with h <;> subst h <;> simp_all
  · intro a args now b
    constructor <;> intro x h <;>
      unfold add_handler at h ⊢ <;> dsimp only at h ⊢ <;>
        split_ifs at h <;> injection h with h <;> subst h <;>
          (try split_ifs) <;> simp_all
  · intro a b
    constructor <;> intro x h <;>
      unfold remove_handler at h ⊢ <;> dsimp only at h ⊢ <;>
        split_ifs at h <;> injection h with h <;> subst h <;> simp_all
  · intro a b
    constructor <;> intro x h <;>
      unfold seize_handler at h ⊢ <;> dsimp only at h ⊢ <;>
        cases hc : checkedAddU64 a.config.audit_counter 1 <;> rw [hc] at h <;>
          split_ifs at h <;> injection h with h <;> subst h <;> simp_all
  · intro a args b
    constructor <;> intro x h <;>
      unfold update_roles_handler at h ⊢ <;> dsimp only at h ⊢ <;>
        split_ifs at h <;> injection h with h <;> subst h <;> simp_all
  · intro a args b
    constructor <;> intro x h <;>
      unfold update_minter_handler at h ⊢ <;> dsimp only at h ⊢ <;>
        split_ifs at h <;> injection h with h <;> subst h <;> simp_all
  · intro a b
    constructor <;> intro x h <;>
      unfold transfer_authority_handler at h ⊢ <;> dsimp only at h ⊢ <;>
        split_ifs at h <;> injection h with h <;> subst h <;> simp_all

/-- Witness for C5: a paused config makes `mint` fail with `SystemPaused`,
while `freeze_account` on a paused config succeeds exactly as on the
unpaused one. -/
theorem pause_gates_only_mint_and_burn_witness :
    mint_handler
      { minterKey := 1
        config := { sampleConfig with is_paused := true }
        configKey := 10, role_account := sampleMasterRole, mintKey := 2
        mintSupply := 0, recipientKey := 3, recipientAtaMint := 2
        recipientAtaOwner := 3, recipientAtaAmount := 0 } 100 0 =
      Except.error StablecoinError.SystemPaused ∧
    freeze_handler
      { freezerKey := 1
        config := { sampleConfig with is_paused := true }
        configKey := 10, role_account := sampleMasterRole, mintKey := 2
        targetAtaMint := 2, targetAtaState := AccountState.initialized } =
      Except.ok
        { config := { { sampleConfig with audit_counter := 6 } with is_paused := true }
          targetAtaState := AccountState.frozen } := by
  constructor
  · exact pause_gates_only_mint_and_burn.1
      { minterKey := 1, config := sampleConfig, configKey := 10
        role_account := sampleMasterRole, mintKey := 2, mintSupply := 0
        recipientKey := 3, recipientAtaMint := 2, recipientAtaOwner := 3
        recipientAtaAmount := 0 } 100 0
  · exact (pause_gates_only_mint_and_burn.2.2.1
      { freezerKey := 1, config := sampleConfig, configKey := 10
        role_account := sampleMasterRole, mintKey := 2, targetAtaMint := 2
        targetAtaState := AccountState.initialized } true).2
      { config := { sampleConfig with audit_counter := 6 }
        targetAtaState := AccountState.frozen }
      (by decide)

/-! ### C4 -/

/-- Inverting a successful `checked_add`. -/
theorem checkedAddU64_some {x y n : Nat} (h : checkedAddU64 x y = some n) :
    n = x + y := by
  unfold checkedAddU64 at h
  split_ifs at h <;> injection h with h <;> subst h <;> rfl

/-- Counterexample to C4 as stated: a successful `add_to_blacklist` leaves
`audit_counter` untouched (here at 5), because `blacklist::add_handler`
never writes the config account. -/
theorem audit_counter_not_universal :
    add_handler
      { blacklisterKey := 1, config := sampleConfig, configKey := 10
        role_account := sampleMasterRole
        blacklist_entry := { sampleActiveEntry with is_active := false }
        entryBump := 251, walletKey := 33 }
      { wallet := 33, reason := "x" } 200 =
      Except.ok
        { config := sampleConfig
          blacklist_entry :=
            { config := 10, wallet := 33, blacklisted_at := 200, blacklisted_by := 1
              reason := "x", is_active := true, bump := 251 } } ∧
    sampleConfig.audit_counter = 5 := by
  constructor
  · decide
  · rfl

set_option maxHeartbeats 4000000 in
/-- C4 amended: only `mint`, `burn`, `freeze_account`, `thaw_account`,
`pause`, `unpause` and `seize` increment the Token Configuration's
`audit_counter`, each by exactly one on success; `add_to_blacklist`,
`remove_from_blacklist`, `update_roles`, `update_minter` and
`transfer_authority` leave it unchanged.  The counter is therefore
monotonically non-decreasing, not strictly increasing, across successful
state-changing operations. -/
theorem audit_counter_increments :
    (∀ (a : MintAccounts) (amount : Nat) (now : Int) (res : MintResult),
      mint_handler a amount now = Except.ok res →
      res.config.audit_counter = a.config.audit_counter + 1) ∧
    (∀ (a : BurnAccounts) (amount : Nat) (res : BurnResult),
      burn_handler a amount = Except.ok res →
      res.config.audit_counter = a.config.audit_counter + 1) ∧
    (∀ (a : FreezeAccounts) (res : FreezeResult),
      freeze_handler a = Except.ok res →
      res.config.audit_counter = a.config.audit_counter + 1) ∧
    (∀ (a : FreezeAccounts) (res : FreezeResult),
      thaw_handler a = Except.ok res →
      res.config.audit_counter = a.config.audit_counter + 1) ∧
    (∀ (a : PauseAccounts) (res : PauseResult),
      pause_handler a = Except.ok res →
      res.config.audit_counter = a.config.audit_counter + 1) ∧
    (∀ (a : PauseAccounts) (res : PauseResult),
      unpause_handler a = Except.ok res →
      res.config.audit_counter = a.config.audit_counter + 1) ∧
    (∀ (a : SeizeAccounts) (res : SeizeResult),
      seize_handler a = Except.ok res →
      res.config.audit_counter = a.config.audit_counter + 1) ∧
    (∀ (a : AddToBlacklistAccounts) (args : AddToBlacklistArgs) (now : Int)
        (res : AddToBlacklistResult),
      add_handler a args now = Except.ok res →
      res.config.audit_counter = a.config.audit_counter) ∧
    (∀ (a : RemoveFromBlacklistAccounts) (res : RemoveFromBlacklistResult),
      remove_handler a = Except.ok res →
      res.config.audit_counter = a.config.audit_counter) ∧
    (∀ (a : UpdateRolesAccounts) (args : UpdateRolesArgs) (res : UpdateRolesResult),
      update_roles_handler a args = Except.ok res →
      res.config.audit_counter = a.config.audit_counter) ∧
    (∀ (a : UpdateMinterAccounts) (args : UpdateMinterArgs) (res : UpdateMinterResult),
      update_minter_handler a args = Except.ok res →
      res.config.audit_counter = a.config.audit_counter) ∧
    (∀ (a : TransferAuthorityAccounts) (res : TransferAuthorityResult),
      transfer_authority_handler a = Except.ok res →
      res.config.audit_counter = a.config.audit_counter) := by
  refine ⟨?_, ?_, ?_, ?_, ?_, ?_, ?_, ?_, ?_, ?_, ?_, ?_⟩
  · intro a amount now res h
    unfold mint_handler at h
    split_ifs at h <;>
      cases hq : applyQuota a.role_account amount now <;> rw [hq] at h <;>
        (try (injection h; done)) <;>
        cases hs : checkedAddU64 a.mintSupply amount <;> rw [hs] at h <;>
          (try (injection h; done)) <;>
          cases ht : checkedAddU64 a.config.total_minted amount <;> rw [ht] at h <;>
            (try (injection h; done)) <;>
            cases hc : checkedAddU64 a.config.audit_counter 1 <;> rw [hc] at h <;>
              (try (injection h; done)) <;> injection h with h <;> subst h <;> simp [checkedAddU64_some hc]
  · intro a amount res h
    unfold burn_handler at h
    split_ifs at h <;>
      cases hs : checkedSubU64 a.mintSupply amount <;> rw [hs] at h <;>
        (try (injection h; done)) <;>
        cases ht : checkedAddU64 a.config.total_burned amount <;> rw [ht] at h <;>
          (try (injection h; done)) <;>
          cases hc : checkedAddU64 a.config.audit_counter 1 <;> rw [hc] at h <;>
            (try (injection h; done)) <;> injection h with h <;> subst h <;> simp [checkedAddU64_some hc]
  · intro a res h
    unfold freeze_handler at h
    cases hc : checkedAddU64 a.config.audit_counter 1 <;> rw [hc] at h <;>
      split_ifs at h <;> (try (injection h; done)) <;> injection h with h <;> subst h <;> simp [checkedAddU64_some hc]
  · intro a res h
    unfold thaw_handler at h
    cases hc : checkedAddU64 a.config.audit_counter 1 <;> rw [hc] at h <;>
      split_ifs at h <;> (try (injection h; done)) <;> injection h with h <;> subst h <;> simp [checkedAddU64_some hc]
  · intro a res h
    unfold pause_handler at h
    cases hc : checkedAddU64 a.config.audit_counter 1 <;> rw [hc] at h <;>
      split_ifs at h <;> (try (injection h; done)) <;> injection h with h <;> subst h <;> simp [checkedAddU64_some hc]
  · intro a res h
    unfold unpause_handler at h
    cases hc : checkedAddU64 a.config.audit_counter 1 <;> rw [hc] at h <;>
      split_ifs at h <;> (try (injection h; done)) <;> injection h with h <;> subst h <;> simp [checkedAddU64_some hc]
  · intro a res h
    unfold seize_handler at h
    cases hc : checkedAddU64 a.config.audit_counter 1 <;> rw [hc] at h <;>
      split_ifs at h <;> (try (injection h; done)) <;> injection h with h <;> subst h <;> simp [checkedAddU64_some hc]
  · intro a args now res h
    unfold add_handler at h
    split_ifs at h <;> (try (injection h; done)) <;> injection h with h <;> subst h <;> rfl
  · intro a res h
    unfold remove_handler at h
    split_ifs at h <;> (try (injection h; done)) <;> injection h with h <;> subst h <;> rfl
  · intro a args res h
    unfold update_roles_handler at h
    split_ifs at h <;> (try (injection h; done)) <;> injection h with h <;> subst h <;> rfl
  · intro a args res h
    unfold update_minter_handler at h
    split_ifs at h <;> (try (injection h; done)) <;> injection h with h <;> subst h <;> rfl
  · intro a res h
    unfold transfer_authority_handler at h
    split_ifs at h <;> (try (injection h; done)) <;> injection h with h <;> subst h <;> rfl

/-- Witness for the amended C4: a concrete `pause` bumps the counter from 5
to 6, and a concrete `update_minter` leaves it at 5. -/
theorem audit_counter_increments_witness :
    (PauseResult.config
        { config := { sampleConfig with is_paused := true, audit_counter := 6 } }).audit_counter
      = sampleConfig.audit_counter + 1 ∧
    (UpdateMinterResult.config
        { config := sampleConfig
          target_role_account :=
            { config := 10, authority := 7, roles := 2, mint_quota := some 9
              minted_current_window := 0, window_start := 0, bump := 250 } }).audit_counter
      = sampleConfig.audit_counter := by
  constructor
  · exact audit_counter_increments.2.2.2.2.1
      { pauserKey := 1, config := sampleConfig, configKey := 10
        role_account := sampleMasterRole }
      { config := { sampleConfig with is_paused := true, audit_counter := 6 } }
      (by decide)
  · exact audit_counter_increments.2.2.2.2.2.2.2.2.2.2.1
      { authorityKey := 1, config := sampleConfig, configKey := 10
        role_account := sampleMasterRole
        target_role_account :=
          { config := 10, authority := 7, roles := 2, mint_quota := some 50
            minted_current_window := 0, window_start := 0, bump := 250 } }
      { new_quota := 9 }
      { config := sampleConfig
        target_role_account :=
          { config := 10, authority := 7, roles := 2, mint_quota := some 9
            minted_current_window := 0, window_start := 0, bump := 250 } }
      (by decide)

/-! ### C2 -/

/-- Counterexample to C2 as stated: with `minted_current_window = quota =
u64::MAX` and no window rollover, `new_total = minted_current_window +
amount` exceeds `quota`, so the claim demands `QuotaExceeded`; the code's
`checked_add` fails first and the mint errors with `Overflow` instead. -/
theorem mint_quota_overflow_cex :
    mint_handler
      { minterKey := 1, config := sampleConfig, configKey := 10
        role_account :=
          { config := 10, authority := 1, roles := 1
            mint_quota := some (2 ^ 64 - 1)
            minted_current_window := 2 ^ 64 - 1
            window_start := 5, bump := 252 }
        mintKey := 2, mintSupply := 0, recipientKey := 3
        recipientAtaMint := 2, recipientAtaOwner := 3, recipientAtaAmount := 0 }
      1 5 = Except.error StablecoinError.Overflow ∧
    (2 ^ 64 - 1 : Nat) + 1 > 2 ^ 64 - 1 ∧
    StablecoinError.Overflow ≠ StablecoinError.QuotaExceeded := by
  refine ⟨by decide, by decide, by decide⟩

/-- C2 amended: for a quota-bound mint whose preceding checks pass, with
the claim's reset rule (`window_start == 0` or `now - window_start ≥
86400`, the code's `saturating_sub` agreeing on `i64`-range inputs) and
`new_total` the post-reset window total plus `amount`: the mint fails with
`Overflow` when `new_total` exceeds `u64::MAX`; otherwise it fails with
`QuotaExceeded` exactly when `new_total > quota`; when `new_total ≤ quota`
every success commits `minted_current_window = new_total` (with
`window_start` updated to `now` exactly on reset and the quota preserved),
and success is guaranteed if the unrelated supply, `total_minted` and
`audit_counter` counters do not themselves overflow.  A failed mint
persists no state (transaction atomicity). -/
theorem mint_quota_window
    (a : MintAccounts) (amount : Nat) (now : Int) (quota : Nat)
    (hq : a.role_account.mint_quota = some quota)
    (hquota : quota < U64_MOD)
    (hp : a.config.is_paused = false)
    (hrc : a.role_account.config = a.configKey)
    (hrole : has_any_role a.role_account.roles
      (ROLE_MASTER_AUTHORITY ||| ROLE_MINTER) = true)
    (hcm : a.config.mint = a.mintKey)
    (ham : a.recipientAtaMint = a.mintKey)
    (hao : a.recipientAtaOwner = a.recipientKey)
    (hnow1 : I64_MIN ≤ now) (hnow2 : now ≤ I64_MAX)
    (hws1 : I64_MIN ≤ a.role_account.window_start)
    (hws2 : a.role_account.window_start ≤ I64_MAX) :
    (U64_MOD ≤
        (if a.role_account.window_start = 0 ∨ 86400 ≤ now - a.role_account.window_start
         then 0 else a.role_account.minted_current_window) + amount →
      mint_handler a amount now = Except.error StablecoinError.Overflow) ∧
    ((if a.role_account.window_start = 0 ∨ 86400 ≤ now - a.role_account.window_start
      then 0 else a.role_account.minted_current_window) + amount < U64_MOD →
     quota <
        (if a.role_account.window_start = 0 ∨ 86400 ≤ now - a.role_account.window_start
         then 0 else a.role_account.minted_current_window) + amount →
      mint_handler a amount now = Except.error StablecoinError.QuotaExceeded) ∧
    ((if a.role_account.window_start = 0 ∨ 86400 ≤ now - a.role_account.window_start
      then 0 else a.role_account.minted_current_window) + amount ≤ quota →
      ∀ res, mint_handler a amount now = Except.ok res →
        res.role_account.minted_current_window =
          (if a.role_account.window_start = 0 ∨ 86400 ≤ now - a.role_account.window_start
           then 0 else a.role_account.minted_current_window) + amount ∧
        res.role_account.window_start =
          (if a.role_account.window_start = 0 ∨ 86400 ≤ now - a.role_account.window_start
           then now else a.role_account.window_start) ∧
        res.role_account.mint_quota = some quota) ∧
    ((if a.role_account.window_start = 0 ∨ 86400 ≤ now - a.role_account.window_start
      then 0 else a.role_account.minted_current_window) + amount ≤ quota →
     a.mintSupply + amount < U64_MOD →
     a.config.total_minted + amount < U64_MOD →
     a.config.audit_counter + 1 < U64_MOD →
      ∃ res, mint_handler a amount now = Except.ok res) := by
  have hiff := saturatingSub_window_iff now a.role_account.window_start
    hnow1 hnow2 hws1 hws2
  by_cases hR : a.role_account.window_start = 0 ∨
      86400 ≤ now - a.role_account.window_start
  · -- window reset branch
    have hcode : a.role_account.window_start = 0 ∨
        saturatingSubI64 now a.role_account.window_start ≥ MINT_QUOTA_WINDOW_SECONDS :=
      hR.imp id hiff.mpr
    have happ : applyQuota a.role_account amount now =
        match checkedAddU64 0 amount with
        | none => Except.error StablecoinError.Overflow
        | some nt =>
          if nt > quota then Except.error StablecoinError.QuotaExceeded
          else Except.ok
            { a.role_account with window_start := now, minted_current_window := nt } := by
      unfold applyQuota
      rw [hq]
      dsimp only
      rw [if_pos hcode]
      simp [hq]
    rw [if_pos hR, if_pos hR]
    refine ⟨?_, ?_, ?_, ?_⟩
    · intro hbig
      have hca : checkedAddU64 0 amount = none := by
        unfold checkedAddU64
        rw [if_neg]
        omega
      simp [mint_handler, hp, hrc, hrole, hcm, ham, hao, happ, hca]
    · intro hlt hgt
      have hca : checkedAddU64 0 amount = some (0 + amount) := by
        unfold checkedAddU64
        rw [if_pos hlt]
      have hgt2 : quota < amount := by omega
      simp [mint_handler, hp, hrc, hrole, hcm, ham, hao, happ, hca, hgt2]
    · intro hle res h
      have hlt : 0 + amount < U64_MOD := lt_of_le_of_lt hle hquota
      have hca : checkedAddU64 0 amount = some (0 + amount) := by
        unfold checkedAddU64
        rw [if_pos hlt]
      have hng : ¬ quota < amount := by omega
      simp only [mint_handler, hp, hrc, hrole, hcm, ham, hao, happ, hca] at h
      simp [hng] at h
      cases hs : checkedAddU64 a.mintSupply amount <;> rw [hs] at h
      · simp at h
      cases ht : checkedAddU64 a.config.total_minted amount <;> rw [ht] at h
      · simp at h
      cases hc : checkedAddU64 a.config.audit_counter 1 <;> rw [hc] at h
      · simp at h
      injection h with h
      subst h
      simp [hq]
    · intro hle hsup htot haud
      have hlt : 0 + amount < U64_MOD := lt_of_le_of_lt hle hquota
      have hca : checkedAddU64 0 amount = some (0 + amount) := by
        unfold checkedAddU64
        rw [if_pos hlt]
      have hng : ¬ quota < amount := by omega
      have hs : checkedAddU64 a.mintSupply amount = some (a.mintSupply + amount) := by
        unfold checkedAddU64
        rw [if_pos hsup]
      have ht : checkedAddU64 a.config.total_minted amount =
          some (a.config.total_minted + amount) := by
        unfold checkedAddU64
        rw [if_pos htot]
      have hc : checkedAddU64 a.config.audit_counter 1 =
          some (a.config.audit_counter + 1) := by
        unfold checkedAddU64
        rw [if_pos haud]
      refine
        ⟨{ config :=
             { a.config with
                 total_minted := a.config.total_minted + amount
                 audit_counter := a.config.audit_counter + 1 }
           role_account :=
             { a.role_account with
                 window_start := now
                 minted_current_window := 0 + amount }
           mintSupply := a.mintSupply + amount
           recipientAtaAmount := a.recipientAtaAmount + amount }, ?_⟩
      simp [mint_handler, hp, hrc, hrole, hcm, ham, hao, happ, hca, hng, hs, ht, hc]
  · -- no reset branch
    have hcode : ¬ (a.role_account.window_start = 0 ∨
        saturatingSubI64 now a.role_account.window_start ≥ MINT_QUOTA_WINDOW_SECONDS) :=
      fun hcontra => hR (hcontra.imp id hiff.mp)
    have happ : applyQuota a.role_account amount now =
        match checkedAddU64 a.role_account.minted_current_window amount with
        | none => Except.error StablecoinError.Overflow
        | some nt =>
          if nt > quota then Except.error StablecoinError.QuotaExceeded
          else Except.ok
            { a.role_account with minted_current_window := nt } := by
      unfold applyQuota
      rw [hq]
      dsimp only
      rw [if_neg hcode]
    rw [if_neg hR, if_neg hR]
    refine ⟨?_, ?_, ?_, ?_⟩
    · intro hbig
      have hca : checkedAddU64 a.role_account.minted_current_window amount = none := by
        unfold checkedAddU64
        rw [if_neg]
        omega
      simp [mint_handler, hp, hrc, hrole, hcm, ham, hao, happ, hca]
    · intro hlt hgt
      have hca : checkedAddU64 a.role_account.minted_current_window amount =
          some (a.role_account.minted_current_window + amount) := by
        unfold checkedAddU64
        rw [if_pos hlt]
      simp [mint_handler, hp, hrc, hrole, hcm, ham, hao, happ, hca, hgt]
    · intro hle res h
      have hlt : a.role_account.minted_current_window + amount < U64_MOD :=
        lt_of_le_of_lt hle hquota
      have hca : checkedAddU64 a.role_account.minted_current_window amount =
          some (a.role_account.minted_current_window + amount) := by
        unfold checkedAddU64
        rw [if_pos hlt]
      have hng : ¬ quota < a.role_account.minted_current_window + amount := not_lt.mpr hle
      simp only [mint_handler, hp, hrc, hrole, hcm, ham, hao, happ, hca] at h
      simp [hng] at h
      cases hs : checkedAddU64 a.mintSupply amount <;> rw [hs] at h
      · simp at h
      cases ht : checkedAddU64 a.config.total_minted amount <;> rw [ht] at h
      · simp at h
      cases hc : checkedAddU64 a.config.audit_counter 1 <;> rw [hc] at h
      · simp at h
      injection h with h
      subst h
      simp [hq]
    · intro hle hsup htot haud
      have hlt : a.role_account.minted_current_window + amount < U64_MOD :=
        lt_of_le_of_lt hle hquota
      have hca : checkedAddU64 a.role_account.minted_current_window amount =
          some (a.role_account.minted_current_window + amount) := by
        unfold checkedAddU64
        rw [if_pos hlt]
      have hng : ¬ quota < a.role_account.minted_current_window + amount := not_lt.mpr hle
      have hs : checkedAddU64 a.mintSupply amount = some (a.mintSupply + amount) := by
        unfold checkedAddU64
        rw [if_pos hsup]
      have ht : checkedAddU64 a.config.total_minted amount =
          some (a.config.total_minted + amount) := by
        unfold checkedAddU64
        rw [if_pos htot]
      have hc : checkedAddU64 a.config.audit_counter 1 =
          some (a.config.audit_counter + 1) := by
        unfold checkedAddU64
        rw [if_pos haud]
      refine
        ⟨{ config :=
             { a.config with
                 total_minted := a.config.total_minted + amount
                 audit_counter := a.config.audit_counter + 1 }
           role_account :=
             { a.role_account with
                 minted_current_window := a.role_account.minted_current_window + amount }
           mintSupply := a.mintSupply + amount
           recipientAtaAmount := a.recipientAtaAmount + amount }, ?_⟩
      simp [mint_handler, hp, hrc, hrole, hcm, ham, hao, happ, hca, hng, hs, ht, hc]

/-- Witness for the amended C2: quota 1000, 500 already minted in a live
window, minting 600 more fails with `QuotaExceeded`. -/
theorem mint_quota_window_witness :
    mint_handler
      { minterKey := 1, config := sampleConfig, configKey := 10
        role_account :=
          { config := 10, authority := 1, roles := 1, mint_quota := some 1000
            minted_current_window := 500, window_start := 100, bump := 252 }
        mintKey := 2, mintSupply := 500, recipientKey := 3
        recipientAtaMint := 2, recipientAtaOwner := 3, recipientAtaAmount := 0 }
      600 200 = Except.error StablecoinError.QuotaExceeded :=
  (mint_quota_window
    { minterKey := 1, config := sampleConfig, configKey := 10
      role_account :=
        { config := 10, authority := 1, roles := 1, mint_quota := some 1000
          minted_current_window := 500, window_start := 100, bump := 252 }
      mintKey := 2, mintSupply := 500, recipientKey := 3
      recipientAtaMint := 2, recipientAtaOwner := 3, recipientAtaAmount := 0 }
    600 200 1000 (by decide) (by decide) (by decide) (by decide) (by decide)
    (by decide) (by decide) (by decide) (by decide) (by decide) (by decide)
    (by decide)).2.1 (by decide) (by decide)

/-! ### C1 -/

/-- The claim's denial condition for one party: the record's data is
non-empty and deserializes to an entry with `is_active == true`. -/
def BlAccount.isActiveEntry : BlAccount → Bool
  | BlAccount.record _ (some e) => e.is_active
  | _ => false

/-- C1: once the hook's account and feature checks pass (and each
non-empty blacklist record deserializes): a transfer whose source owner is
the Token Configuration address itself is approved unconditionally;
otherwise it fails with `TransferDenied` exactly when the source owner's or
destination owner's deserialized blacklist record has `is_active == true`,
and returns success when both records are empty or inactive. -/
theorem execute_blacklist_gate
    (programId : Pubkey) (a : ExecuteAccounts)
    (expectedExtraMetas : Pubkey) (cfg : StablecoinConfig)
    (h1 : a.extraMetasOwner = programId)
    (h2 : a.extraMetasKey = expectedExtraMetas)
    (h3 : a.coreProgramKey = stablecoinCoreProgramId)
    (h4 : a.configAccount.owner = stablecoinCoreProgramId)
    (h5 : a.configAccount.data = some cfg)
    (h6 : cfg.features.transfer_hook = true)
    (h7 : cfg.transfer_hook_program = some programId)
    (h8 : cfg.mint = a.mintKey)
    (h9 : a.source_blacklist_entry.ownerMismatch stablecoinCoreProgramId = false)
    (h10 : a.destination_blacklist_entry.ownerMismatch stablecoinCoreProgramId = false)
    (h11 : ∀ o, a.source_blacklist_entry ≠ BlAccount.record o none)
    (h12 : ∀ o, a.destination_blacklist_entry ≠ BlAccount.record o none) :
    (a.sourceOwnerKey = a.configAccount.key →
      execute_handler programId a expectedExtraMetas true = Except.ok ()) ∧
    (a.sourceOwnerKey ≠ a.configAccount.key →
      (execute_handler programId a expectedExtraMetas true =
          Except.error (HookFailure.hookError TransferHookError.TransferDenied) ↔
        (a.source_blacklist_entry.isActiveEntry = true ∨
         a.destination_blacklist_entry.isActiveEntry = true)) ∧
      ((a.source_blacklist_entry.isActiveEntry = false ∧
        a.destination_blacklist_entry.isActiveEntry = false) →
        execute_handler programId a expectedExtraMetas true = Except.ok ())) := by
  constructor
  · intro heq
    simp [execute_handler, h1, h2, h3, h4, h5, h6, h7, h8, h9, h10, heq]
  · intro hne
    have hrun : execute_handler programId a expectedExtraMetas true =
        (match check_blacklist a.source_blacklist_entry with
         | Except.error e => Except.error e
         | Except.ok _ => check_blacklist a.destination_blacklist_entry) := by
      simp [execute_handler, h1, h2, h3, h4, h5, h6, h7, h8, h9, h10, hne]
    rw [hrun]
    cases hsrc : a.source_blacklist_entry with
    | empty =>
      cases hdst : a.destination_blacklist_entry with
      | empty =>
        simp [check_blacklist, BlAccount.isActiveEntry]
      | record o d =>
        cases d with
        | none => exact absurd hdst (h12 o)
        | some e =>
          by_cases hae : e.is_active <;>
            simp [check_blacklist, BlAccount.isActiveEntry, hae]
    | record o d =>
      cases d with
      | none => exact absurd hsrc (h11 o)
      | some e =>
        by_cases hae : e.is_active
        · simp [check_blacklist, BlAccount.isActiveEntry, hae]
        · cases hdst : a.destination_blacklist_entry with
          | empty =>
            simp [check_blacklist, BlAccount.isActiveEntry, hae]
          | record o2 d2 =>
            cases d2 with
            | none => exact absurd hdst (h12 o2)
            | some e2 =>
              by_cases hae2 : e2.is_active <;>
                simp [check_blacklist, BlAccount.isActiveEntry, hae, hae2]

/-- Witness for C1: an actively blacklisted source owner is denied with
`TransferDenied`; the same accounts with the config itself as source owner
(the seizure exception) are approved. -/
theorem execute_blacklist_gate_witness :
    execute_handler 7
      { mintKey := 2, sourceOwnerKey := 20, extraMetasOwner := 7
        extraMetasKey := 55, coreProgramKey := stablecoinCoreProgramId
        configAccount :=
          { owner := stablecoinCoreProgramId, key := 10
            data := some { sampleConfig with transfer_hook_program := some 7 } }
        source_blacklist_entry :=
          BlAccount.record stablecoinCoreProgramId (some sampleActiveEntry)
        destination_blacklist_entry := BlAccount.empty }
      55 true =
      Except.error (HookFailure.hookError TransferHookError.TransferDenied) ∧
    execute_handler 7
      { mintKey := 2, sourceOwnerKey := 10, extraMetasOwner := 7
        extraMetasKey := 55, coreProgramKey := stablecoinCoreProgramId
        configAccount :=
          { owner := stablecoinCoreProgramId, key := 10
            data := some { sampleConfig with transfer_hook_program := some 7 } }
        source_blacklist_entry :=
          BlAccount.record stablecoinCoreProgramId (some sampleActiveEntry)
        destination_blacklist_entry := BlAccount.empty }
      55 true = Except.ok () := by
  constructor
  · exact ((execute_blacklist_gate 7
      { mintKey := 2, sourceOwnerKey := 20, extraMetasOwner := 7
        extraMetasKey := 55, coreProgramKey := stablecoinCoreProgramId
        configAccount :=
          { owner := stablecoinCoreProgramId, key := 10
            data := some { sampleConfig with transfer_hook_program := some 7 } }
        source_blacklist_entry :=
          BlAccount.record stablecoinCoreProgramId (some sampleActiveEntry)
        destination_blacklist_entry := BlAccount.empty }
      55 { sampleConfig with transfer_hook_program := some 7 }
      rfl rfl rfl rfl rfl rfl rfl rfl (by decide) (by decide)
      (fun o h => by injection h with hh1 hh2; exact Option.noConfusion hh2)
      (fun o h => BlAccount.noConfusion h)).2 (by decide)).1.mpr
      (Or.inl (by decide))
  · exact (execute_blacklist_gate 7
      { mintKey := 2, sourceOwnerKey := 10, extraMetasOwner := 7
        extraMetasKey := 55, coreProgramKey := stablecoinCoreProgramId
        configAccount :=
          { owner := stablecoinCoreProgramId, key := 10
            data := some { sampleConfig with transfer_hook_program := some 7 } }
        source_blacklist_entry :=
          BlAccount.record stablecoinCoreProgramId (some sampleActiveEntry)
        destination_blacklist_entry := BlAccount.empty }
      55 { sampleConfig with transfer_hook_program := some 7 }
      rfl rfl rfl rfl rfl rfl rfl rfl (by decide) (by decide)
      (fun o h => by injection h with hh1 hh2; exact Option.noConfusion hh2)
      (fun o h => BlAccount.noConfusion h)).1 rfl

end Stablecoin
